import Mathlib

/-!
Verification of the response-resolution core of the ConroeISD AI chatbot
(`src/ConroeISD_AI_Chatbot.py`).

The Python file is a Streamlit application.  Its session state holds three
variables (`conversation`, `chat_history`, `document_processed`), a sidebar
button handler that ingests an uploaded document, and a chat handler that
forwards free-form questions to a LangChain conversational retrieval chain,
streaming the reply through a callback handler.  We embed the session state,
the two event handlers and the callback handler as pure Lean functions; the
external collaborators (text splitter, embeddings/vector store, the
conversation chain itself) are boundary calls whose outcomes are supplied as
data on each event, as the specification treats them (spec sections 4.3, 4.4, 6).

The Rule Matcher and the rule-first orchestrator described by the spec live in
the repository's second (React) front-end, which is not among the provided
source files; they are modelled from the spec where a claim needs them.
-/

/-- A chat message as stored in `st.session_state.chat_history`:
a dict `{"role": ..., "content": ...}`. -/
structure Message where
  role : String
  content : String
deriving DecidableEq, Repr

/-- The FAISS vector store produced by `process_document`: an opaque handle to
the stored document chunks (`FAISS.from_texts(texts=chunks, ...)`). -/
structure Vectorstore where
  chunks : List String
deriving DecidableEq, Repr

/-- The `ConversationalRetrievalChain` built by `get_conversation_chain`: an
opaque handle holding the retriever's vector store and the OpenAI key the
chain was constructed with. -/
structure Chain where
  vectorstore : Vectorstore
  apiKey : String
deriving DecidableEq, Repr

/-- The Streamlit session state initialised at the top of `main`
(lines 124-129 of the source). -/
structure SessionState where
  conversation : Option Chain
  chat_history : List Message
  document_processed : Bool
deriving DecidableEq, Repr

/-- Initial session state: `conversation = None`, `chat_history = []`,
`document_processed = False`. -/
def initState : SessionState :=
  { conversation := none, chat_history := [], document_processed := false }

/-- A user-visible UI notification emitted by a handler
(`st.error`, `st.warning`, `st.success`). -/
inductive UIAction where
  | errorMsg (text : String)
  | warningMsg (text : String)
  | successMsg (text : String)
deriving DecidableEq, Repr

/-- The state of `StreamlitCallbackHandler`: the accumulated text and the
successive texts rendered into the placeholder container by
`container.markdown(self.text)`. -/
structure StreamlitCallbackHandler where
  text : String
  containerRenders : List String
deriving DecidableEq, Repr

/-- `StreamlitCallbackHandler.on_llm_new_token` (source lines 42-45):
`self.text += token; self.container.markdown(self.text)`. -/
def on_llm_new_token (h : StreamlitCallbackHandler) (token : String) :
    StreamlitCallbackHandler :=
  { text := h.text ++ token, containerRenders := h.containerRenders ++ [h.text ++ token] }

/-- Feeding a finite sequence of streamed tokens through the callback handler,
one `on_llm_new_token` call per token. -/
def drainTokens (h : StreamlitCallbackHandler) (tokens : List String) :
    StreamlitCallbackHandler :=
  tokens.foldl on_llm_new_token h

/-- `process_document` (source lines 47-83).  The external calls are supplied
as data: `split` is the behaviour of `CharacterTextSplitter.split_text`, and
`embedOk` says whether the `OpenAIEmbeddings` / `FAISS.from_texts` calls inside
the `try` succeed.  Returns the vector store (or `none`) together with the UI
actions the function emitted, exactly as the Python does: an explicit
`st.error` when the chunk list is empty, and the `except`-branch `st.error`
when an external call raises. -/
def process_document (split : String → List String) (embedOk : Bool)
    (document_text : String) (openai_api_key : String) :
    Option Vectorstore × List UIAction :=
  let chunks := split document_text
  if chunks.isEmpty then
    (none, [UIAction.errorMsg
      "Could not split the document into chunks. Please check the document format."])
  else if embedOk then
    (some { chunks := chunks }, [])
  else
    (none, [UIAction.errorMsg "An error occurred during document processing"])

/-- `get_conversation_chain` (source lines 85-115): builds the chain from the
vector store and the key; it performs no external call and always returns a
chain object. -/
def get_conversation_chain (vectorstore : Vectorstore) (openai_api_key : String) :
    Chain :=
  { vectorstore := vectorstore, apiKey := openai_api_key }

/-- Observable effects of one handler run: UI notifications, the number of
conversation-chain (Completion Client) invocations actually issued, the text
increments delivered to the UI sink by the streaming callback, and whether the
handler invoked `st.session_state.conversation` while it was `None`. -/
structure Trace where
  ui : List UIAction
  completionAttempts : Nat
  streamed : List String
  calledNoneConversation : Bool
deriving DecidableEq, Repr

/-- The sidebar "Process Document" button handler (source lines 154-173).
`uploaded_file` is the decoded text of the uploaded file, if any;
`openai_api_key` is the current content of the key text input (absent = `""`,
matching Python truthiness of the string). -/
def handleProcessClick (s : SessionState) (uploaded_file : Option String)
    (openai_api_key : String) (split : String → List String) (embedOk : Bool) :
    SessionState × Trace :=
  match uploaded_file with
  | some document_text =>
    if openai_api_key = "" then
      (s, ⟨[UIAction.warningMsg "Please enter your OpenAI API key to proceed."], 0, [], false⟩)
    else
      let pd := process_document split embedOk document_text openai_api_key
      match pd.1 with
      | some vectorstore =>
        ({ s with
            conversation := some (get_conversation_chain vectorstore openai_api_key),
            document_processed := true },
         ⟨pd.2 ++ [UIAction.successMsg
            "Document processed successfully! You can now ask questions."], 0, [], false⟩)
      | none =>
        (s, ⟨pd.2 ++ [UIAction.errorMsg "Failed to process the document."], 0, [], false⟩)
  | none =>
    if openai_api_key = "" then
      (s, ⟨[UIAction.warningMsg "Please enter your OpenAI API key to proceed."], 0, [], false⟩)
    else
      (s, ⟨[UIAction.warningMsg "Please upload a document to process."], 0, [], false⟩)

/-- Modelled from the spec: outcome of one invocation of the external
conversation chain (Completion Client plus Retrieval Collaborator, spec
sections 4.4 and 6), which is a LangChain object not part of this repository.
On success the chain streams a finite sequence of text increments through the
registered callback handler and, per the spec's streaming contract, records the
drained reply as the final message of its returned chat history.  On failure it
raises an exception after having streamed some first part of the increments. -/
inductive ChainOutcome where
  | success (tokens : List String)
  | failure (tokensBeforeError : List String) (err : String)

/-- The chat-input handler (source lines 185-206).  `st.chat_input` is rendered
with `disabled=not st.session_state.document_processed`, so a submitted
question only reaches the handler when `document_processed` is true; the
handler appends the user message, invokes the conversation chain with the
streaming callback registered, and on success appends the chain's final reply
(the drained stream) as a single assistant message; any exception is caught and
shown via `st.error` without appending an assistant message.  If
`conversation` is `None`, calling it raises immediately inside the `try`
(recorded in the trace), before any external call is issued.
`openai_api_key` is the current content of the key text input; the chat path
of the source never reads it. -/
def handleChat (s : SessionState) (chat_input : Option String)
    (openai_api_key : String) (outcome : ChainOutcome) : SessionState × Trace :=
  match (if s.document_processed then chat_input else none) with
  | none => (s, ⟨[], 0, [], false⟩)
  | some user_question =>
    let s1 := { s with chat_history := s.chat_history ++ [⟨"user", user_question⟩] }
    match s.conversation with
    | none =>
      (s1, ⟨[UIAction.errorMsg
        "An error occurred while generating the response: NoneType object is not callable"],
        0, [], true⟩)
    | some _conversation =>
      match outcome with
      | ChainOutcome.failure tokensBeforeError err =>
        (s1, ⟨[UIAction.errorMsg ("An error occurred while generating the response: " ++ err)],
          1, tokensBeforeError, false⟩)
      | ChainOutcome.success tokens =>
        let handler := drainTokens { text := "", containerRenders := [] } tokens
        ({ s1 with chat_history := s1.chat_history ++ [⟨"assistant", handler.text⟩] },
         ⟨[], 1, tokens, false⟩)

/-- One user-driven event of a session: a click on "Process Document" or a
submission into the chat input, each carrying the current UI inputs and the
behaviour of the external collaborators for this run. -/
inductive Event where
  | processClick (uploaded_file : Option String) (openai_api_key : String)
      (split : String → List String) (embedOk : Bool)
  | chatMsg (chat_input : Option String) (openai_api_key : String)
      (outcome : ChainOutcome)

/-- Dispatch one event to its handler. -/
def stepEvent (s : SessionState) : Event → SessionState × Trace
  | Event.processClick uploaded_file openai_api_key split embedOk =>
      handleProcessClick s uploaded_file openai_api_key split embedOk
  | Event.chatMsg chat_input openai_api_key outcome =>
      handleChat s chat_input openai_api_key outcome

/-- Run a sequence of events from a state. -/
def runEvents (s : SessionState) : List Event → SessionState
  | [] => s
  | e :: es => runEvents (stepEvent s e).1 es

/-- Session states reachable from the initial state by user events. -/
inductive Reachable : SessionState → Prop where
  | init : Reachable initState
  | step {s : SessionState} (e : Event) : Reachable s → Reachable (stepEvent s e).1

/-- An event is a successful document ingestion: the button was clicked with a
file uploaded and a non-empty key, the splitter produced at least one chunk,
and the embedding/vector-store calls succeeded. -/
def ingestSucceeded : Event → Bool
  | Event.processClick (some document_text) openai_api_key split embedOk =>
      openai_api_key != "" && !(split document_text).isEmpty && embedOk
  | _ => false

/-- A keyword rule of the spec's Rule Matcher: a trigger and a canned reply. -/
structure Rule where
  trigger : String
  reply : String
deriving DecidableEq, Repr

/-- Whether `needle` occurs as a contiguous prefix of `haystack`
(character lists). -/
def startsWithList : List Char → List Char → Bool
  | [], _ => true
  | _ :: _, [] => false
  | a :: as, b :: bs => a == b && startsWithList as bs

/-- Whether `needle` occurs as a contiguous sublist of `haystack`
(character lists). -/
def hasSubList (needle : List Char) : List Char → Bool
  | [] => needle.isEmpty
  | b :: bs => startsWithList needle (b :: bs) || hasSubList needle bs

/-- Whether `needle` is a substring of `haystack` (Python's `needle in
haystack` on strings). -/
def strHasSub (haystack needle : String) : Bool :=
  hasSubList needle.data haystack.data

/-- ASCII lower-casing of one character. -/
def lowerChar (c : Char) : Char :=
  if 'A' ≤ c ∧ c ≤ 'Z' then Char.ofNat (c.toNat + 32) else c

/-- ASCII lower-casing of a string, applied character-wise. -/
def lowerStr (s : String) : String := ⟨s.data.map lowerChar⟩

/-- Whether a rule fires on a message: its trigger, lower-cased, is a
substring of the lower-cased message text. -/
def ruleFires (text : String) (r : Rule) : Bool :=
  strHasSub (lowerStr text) (lowerStr r.trigger)

/-- Modelled from the spec: the Rule Matcher (spec section 4.1), which lives in
the repository's React front-end, not among the provided source files.
Iterates the static rule sequence in declared order and returns the reply of
the first rule whose lower-cased trigger is a substring of the lower-cased
text; `none` when no rule qualifies. -/
def matchRules (rules : List Rule) (text : String) : Option String :=
  match rules with
  | [] => none
  | r :: rest => if ruleFires text r then some r.reply else matchRules rest text

/-- Result of the orchestrator resolving one message: the new transcript and
the number of Completion Client calls issued. -/
structure OrchResult where
  transcript : List Message
  completionCalls : Nat
deriving Repr

/-- Modelled from the spec: the rule-first, model-fallback per-message policy
of the Conversation Orchestrator in `READY` state (spec section 4.2), whose
rule-matching half lives in the React front-end not among the provided source
files.  Appends the user message, short-circuits on a rule match, and
otherwise issues exactly one Completion Client call, appending the complete
reply on success and nothing on failure. -/
def orchRespond (rules : List Rule) (complete : String → Except String String)
    (transcript : List Message) (m : String) : OrchResult :=
  let t1 := transcript ++ [⟨"user", m⟩]
  match matchRules rules m with
  | some reply => ⟨t1 ++ [⟨"assistant", reply⟩], 0⟩
  | none =>
    match complete m with
    | Except.ok reply => ⟨t1 ++ [⟨"assistant", reply⟩], 1⟩
    | Except.error _ => ⟨t1, 1⟩

/-! ## Basic lemmas about the handlers -/

/-- The chat handler never touches `conversation` or `document_processed`. -/
theorem handleChat_preserves_flags (s : SessionState) (q : Option String)
    (k : String) (out : ChainOutcome) :
    (handleChat s q k out).1.conversation = s.conversation ∧
      (handleChat s q k out).1.document_processed = s.document_processed := by
  unfold handleChat
  split
  · exact ⟨rfl, rfl⟩
  · split
    · exact ⟨rfl, rfl⟩
    · split <;> exact ⟨rfl, rfl⟩

/-- The "Process Document" handler never touches `chat_history`. -/
theorem handleProcessClick_chat_history (s : SessionState) (f : Option String)
    (k : String) (split : String → List String) (embedOk : Bool) :
    (handleProcessClick s f k split embedOk).1.chat_history = s.chat_history := by
  cases f with
  | none => unfold handleProcessClick; by_cases hk : k = "" <;> simp [hk]
  | some doc =>
    unfold handleProcessClick process_document
    by_cases hk : k = ""
    · simp [hk]
    · cases hc : (split doc).isEmpty with
      | true => simp [hk, hc]
      | false => cases he : embedOk <;> simp [hk, hc, he]

/-- A failed (or precondition-violating) "Process Document" click leaves the
whole session state unchanged. -/
theorem handleProcessClick_failure (s : SessionState) (f : Option String)
    (k : String) (split : String → List String) (embedOk : Bool)
    (h : ingestSucceeded (Event.processClick f k split embedOk) = false) :
    (handleProcessClick s f k split embedOk).1 = s := by
  cases f with
  | none => unfold handleProcessClick; by_cases hk : k = "" <;> simp [hk]
  | some doc =>
    unfold handleProcessClick process_document
    by_cases hk : k = ""
    · simp [hk]
    · cases hc : (split doc).isEmpty with
      | true => simp [hk, hc]
      | false =>
        cases he : embedOk with
        | true => simp [ingestSucceeded, hk, hc, he] at h
        | false => simp [hk, hc, he]

/-- A successful ingestion sets `document_processed` and installs the chain
built from the produced vector store. -/
theorem handleProcessClick_success (s : SessionState) (doc k : String)
    (split : String → List String) (embedOk : Bool)
    (h : ingestSucceeded (Event.processClick (some doc) k split embedOk) = true) :
    (handleProcessClick s (some doc) k split embedOk).1 =
      { s with
          conversation := some (get_conversation_chain { chunks := split doc } k),
          document_processed := true } := by
  simp only [ingestSucceeded, Bool.and_eq_true, bne_iff_ne, ne_eq,
    Bool.not_eq_true'] at h
  obtain ⟨⟨hk, hc⟩, he⟩ := h
  unfold handleProcessClick process_document
  simp [hk, hc, he]

/-- Successful ingestion sets `document_processed` from any state. -/
theorem stepEvent_document_processed_of_success (s : SessionState) (e : Event)
    (h : ingestSucceeded e = true) :
    (stepEvent s e).1.document_processed = true := by
  cases e with
  | chatMsg q k out => simp [ingestSucceeded] at h
  | processClick f k split embedOk =>
    cases f with
    | none => simp [ingestSucceeded] at h
    | some doc =>
      rw [stepEvent, handleProcessClick_success s doc k split embedOk h]

/-- If a step establishes `document_processed`, either it already held or the
event was a successful ingestion. -/
theorem stepEvent_document_processed_source (s : SessionState) (e : Event)
    (h : (stepEvent s e).1.document_processed = true) :
    s.document_processed = true ∨ ingestSucceeded e = true := by
  cases e with
  | chatMsg q k out =>
    left
    rw [← (handleChat_preserves_flags s q k out).2]
    exact h
  | processClick f k split embedOk =>
    by_cases hi : ingestSucceeded (Event.processClick f k split embedOk) = true
    · right; exact hi
    · left
      rw [stepEvent, handleProcessClick_failure s f k split embedOk
        (Bool.not_eq_true _ ▸ hi)] at h
      exact h

/-- Invariant of all reachable states: whenever `document_processed` is set,
a conversation chain is installed. -/
theorem reachable_conversation_isSome {s : SessionState} (h : Reachable s) :
    s.document_processed = true → s.conversation.isSome = true := by
  induction h with
  | init => intro hdp; simp [initState] at hdp
  | step e hr ih =>
    rename_i s0
    intro hdp
    cases e with
    | chatMsg q k out =>
      rw [stepEvent, (handleChat_preserves_flags s0 q k out).1]
      rw [stepEvent, (handleChat_preserves_flags s0 q k out).2] at hdp
      exact ih hdp
    | processClick f k split embedOk =>
      by_cases hi : ingestSucceeded (Event.processClick f k split embedOk) = true
      · cases f with
        | none => simp [ingestSucceeded] at hi
        | some doc =>
          rw [stepEvent, handleProcessClick_success s0 doc k split embedOk hi]
          rfl
      · rw [stepEvent, handleProcessClick_failure s0 f k split embedOk
          (Bool.not_eq_true _ ▸ hi)] at hdp ⊢
        exact ih hdp

/-- Every step only ever appends to the transcript. -/
theorem stepEvent_chat_history_append (s : SessionState) (e : Event) :
    ∃ t, (stepEvent s e).1.chat_history = s.chat_history ++ t := by
  cases e with
  | processClick f k split embedOk =>
    exact ⟨[], by rw [stepEvent, handleProcessClick_chat_history, List.append_nil]⟩
  | chatMsg q k out =>
    rw [stepEvent]
    unfold handleChat
    cases hq : (if s.document_processed then q else none) with
    | none => exact ⟨[], by simp⟩
    | some user_question =>
      cases hc : s.conversation with
      | none => exact ⟨[⟨"user", user_question⟩], by simp⟩
      | some c =>
        cases out with
        | failure pre err => exact ⟨[⟨"user", user_question⟩], by simp⟩
        | success tokens =>
          exact ⟨[⟨"user", user_question⟩,
            ⟨"assistant", (drainTokens ⟨"", []⟩ tokens).text⟩], by simp⟩

/-- If a run of events ends with `document_processed` set, it already held at
the start or some event of the run was a successful ingestion. -/
theorem runEvents_document_processed (es : List Event) (s : SessionState)
    (h : (runEvents s es).document_processed = true) :
    s.document_processed = true ∨ ∃ e ∈ es, ingestSucceeded e = true := by
  induction es generalizing s with
  | nil => left; exact h
  | cons e es ih =>
    rw [runEvents] at h
    rcases ih _ h with h1 | ⟨e1, he1, hi⟩
    · rcases stepEvent_document_processed_source s e h1 with h2 | h2
      · left; exact h2
      · right; exact ⟨e, List.mem_cons_self e es, h2⟩
    · right; exact ⟨e1, List.mem_cons_of_mem e he1, hi⟩

/-- Concatenation of a list of strings. -/
def joinStrs : List String → String
  | [] => ""
  | s :: rest => s ++ joinStrs rest

/-- Draining a token stream through the callback handler accumulates exactly
the concatenation of the tokens after the initial text. -/
theorem drainTokens_text (tokens : List String) (h : StreamlitCallbackHandler) :
    (drainTokens h tokens).text = h.text ++ joinStrs tokens := by
  induction tokens generalizing h with
  | nil => simp [drainTokens, joinStrs, String.append_empty]
  | cons t ts ih =>
    show (drainTokens (on_llm_new_token h t) ts).text = _
    rw [ih, on_llm_new_token, joinStrs, String.append_assoc]

/-! ## Claim theorems -/

/-- C3: A successful document ingestion sets `document_processed` (moving an
`AWAITING_DOCUMENT` session to `READY`); a failed or precondition-violating
"Process Document" click leaves the whole session state unchanged; and no run
of events starting from the initial state ends `READY` without containing a
successful ingestion. -/
theorem ingest_state_transition :
    (∀ s e, ingestSucceeded e = true → (stepEvent s e).1.document_processed = true) ∧
    (∀ s f k split embedOk,
      ingestSucceeded (Event.processClick f k split embedOk) = false →
      (stepEvent s (Event.processClick f k split embedOk)).1 = s) ∧
    (∀ es, (runEvents initState es).document_processed = true →
      ∃ e ∈ es, ingestSucceeded e = true) := by
  refine ⟨stepEvent_document_processed_of_success, ?_, ?_⟩
  · intro s f k split embedOk h
    exact handleProcessClick_failure s f k split embedOk h
  · intro es h
    rcases runEvents_document_processed es initState h with h1 | h1
    · simp [initState] at h1
    · exact h1

/-- Witness for C3 at concrete inputs: a successful ingestion from the initial
state reaches `READY`; a keyless click leaves the state unchanged; and the
one-event `READY` run contains a successful ingestion. -/
theorem ingest_state_transition_witness :
    (stepEvent initState
      (Event.processClick (some "line") "sk-key" (fun d => [d]) true)).1.document_processed
        = true ∧
    (stepEvent initState (Event.processClick (some "line") "" (fun d => [d]) true)).1
        = initState ∧
    ∃ e ∈ [Event.processClick (some "line") "sk-key" (fun d => [d]) true],
      ingestSucceeded e = true :=
  ⟨ingest_state_transition.1 initState _ (by decide),
   ingest_state_transition.2.1 initState _ _ _ _ (by decide),
   ingest_state_transition.2.2 [Event.processClick (some "line") "sk-key" (fun d => [d]) true]
     (by decide)⟩

/-- C4: While `document_processed` is false (`AWAITING_DOCUMENT`), a chat
submission is rejected: the chat input widget is disabled, so the handler
receives nothing — the session state (in particular the transcript) is
unchanged, no Completion Client call is attempted, nothing is streamed and no
UI notification is produced.  (The provided Python front-end contains no Rule
Matcher at all, so a fortiori none is invoked on this path.) -/
theorem awaiting_document_rejects_input (s : SessionState) (q : Option String)
    (k : String) (out : ChainOutcome) (h : s.document_processed = false) :
    stepEvent s (Event.chatMsg q k out) = (s, ⟨[], 0, [], false⟩) := by
  rw [stepEvent]
  unfold handleChat
  simp [h]

/-- Witness for C4: in the initial state a question is rejected with no
effects. -/
theorem awaiting_document_rejects_input_witness :
    stepEvent initState (Event.chatMsg (some "hello") "sk-key"
      (ChainOutcome.success ["a"])) = (initState, ⟨[], 0, [], false⟩) :=
  awaiting_document_rejects_input initState (some "hello") "sk-key"
    (ChainOutcome.success ["a"]) rfl

/-- C7: Ingesting a document whose splitting yields zero chunks fails:
`process_document` returns no vector store, the splitter error and the
"Failed to process" error are shown, and the session state is completely
unchanged — an `AWAITING_DOCUMENT` session stays `AWAITING_DOCUMENT` and no
conversation chain is installed. -/
theorem empty_document_ingestion_fails (s : SessionState) (doc k : String)
    (split : String → List String) (embedOk : Bool)
    (hk : k ≠ "") (hc : split doc = []) :
    (process_document split embedOk doc k).1 = none ∧
    stepEvent s (Event.processClick (some doc) k split embedOk) =
      (s, ⟨[UIAction.errorMsg
          "Could not split the document into chunks. Please check the document format.",
        UIAction.errorMsg "Failed to process the document."], 0, [], false⟩) := by
  constructor
  · unfold process_document
    simp [hc]
  · rw [stepEvent]
    unfold handleProcessClick process_document
    simp [hk, hc]

/-- Witness for C7: splitting that returns no chunks on a concrete document
leaves the initial state unchanged and shows the two errors. -/
theorem empty_document_ingestion_fails_witness :
    (process_document (fun _ => []) true "doc" "sk-key").1 = none ∧
    stepEvent initState (Event.processClick (some "doc") "sk-key" (fun _ => []) true) =
      (initState, ⟨[UIAction.errorMsg
          "Could not split the document into chunks. Please check the document format.",
        UIAction.errorMsg "Failed to process the document."], 0, [], false⟩) :=
  empty_document_ingestion_fails initState "doc" "sk-key" (fun _ => []) true
    (by decide) rfl

/-- C8: The transcript is append-only: every event either leaves
`chat_history` unchanged or appends messages at its end (so no existing
message is ever modified or removed); a "Process Document" click — in
particular a replacement-document ingestion — leaves it exactly unchanged;
and it is empty exactly at session start. -/
theorem transcript_append_only :
    (∀ s e, ∃ t, (stepEvent s e).1.chat_history = s.chat_history ++ t) ∧
    (∀ s f k split embedOk,
      (stepEvent s (Event.processClick f k split embedOk)).1.chat_history
        = s.chat_history) ∧
    initState.chat_history = [] :=
  ⟨stepEvent_chat_history_append,
   fun s f k split embedOk => handleProcessClick_chat_history s f k split embedOk,
   rfl⟩

/-- C9: A failed re-ingestion attempted while the session is `READY` leaves
the session exactly as it was: still `READY`, with the previous document's
conversation chain still installed; a subsequent question is still accepted
and issues exactly one Completion Client call (answered against the retained
chain) rather than being rejected. -/
theorem failed_reingest_keeps_ready (s : SessionState) (c : Chain)
    (f : Option String) (k : String) (split : String → List String) (embedOk : Bool)
    (hready : s.document_processed = true) (hconv : s.conversation = some c)
    (hfail : ingestSucceeded (Event.processClick f k split embedOk) = false) :
    (stepEvent s (Event.processClick f k split embedOk)).1 = s ∧
    (stepEvent s (Event.processClick f k split embedOk)).1.document_processed = true ∧
    (stepEvent s (Event.processClick f k split embedOk)).1.conversation = some c ∧
    (∀ q ku toks,
      (stepEvent (stepEvent s (Event.processClick f k split embedOk)).1
        (Event.chatMsg (some q) ku (ChainOutcome.success toks))).2.completionAttempts = 1 ∧
      (stepEvent (stepEvent s (Event.processClick f k split embedOk)).1
        (Event.chatMsg (some q) ku (ChainOutcome.success toks))).1.chat_history.length
          = s.chat_history.length + 2) := by
  have hs1 : (stepEvent s (Event.processClick f k split embedOk)).1 = s :=
    handleProcessClick_failure s f k split embedOk hfail
  refine ⟨hs1, ?_, ?_, ?_⟩
  · rw [hs1]; exact hready
  · rw [hs1]; exact hconv
  · intro q ku toks
    rw [hs1, stepEvent]
    unfold handleChat
    simp [hready, hconv]

/-- Witness for C9: after a successful ingestion, a re-ingestion whose
splitting fails leaves the session `READY` with the installed chain, and the
next question is resolved with one completion call and two appended
messages. -/
theorem failed_reingest_keeps_ready_witness :
    (stepEvent
      { conversation := some { vectorstore := { chunks := ["d"] }, apiKey := "sk-key" },
        chat_history := [], document_processed := true }
      (Event.processClick (some "other") "sk-key" (fun _ => []) true)).1 =
      { conversation := some { vectorstore := { chunks := ["d"] }, apiKey := "sk-key" },
        chat_history := [], document_processed := true } ∧
    (stepEvent
      { conversation := some { vectorstore := { chunks := ["d"] }, apiKey := "sk-key" },
        chat_history := [], document_processed := true }
      (Event.processClick (some "other") "sk-key" (fun _ => []) true)).1.document_processed
        = true ∧
    (stepEvent
      { conversation := some { vectorstore := { chunks := ["d"] }, apiKey := "sk-key" },
        chat_history := [], document_processed := true }
      (Event.processClick (some "other") "sk-key" (fun _ => []) true)).1.conversation
        = some { vectorstore := { chunks := ["d"] }, apiKey := "sk-key" } ∧
    (stepEvent (stepEvent
        { conversation := some { vectorstore := { chunks := ["d"] }, apiKey := "sk-key" },
          chat_history := [], document_processed := true }
        (Event.processClick (some "other") "sk-key" (fun _ => []) true)).1
      (Event.chatMsg (some "next question") "sk-key"
        (ChainOutcome.success ["re", "ply"]))).2.completionAttempts = 1 ∧
    (stepEvent (stepEvent
        { conversation := some { vectorstore := { chunks := ["d"] }, apiKey := "sk-key" },
          chat_history := [], document_processed := true }
        (Event.processClick (some "other") "sk-key" (fun _ => []) true)).1
      (Event.chatMsg (some "next question") "sk-key"
        (ChainOutcome.success ["re", "ply"]))).1.chat_history.length = 0 + 2 := by
  have h := failed_reingest_keeps_ready
    { conversation := some { vectorstore := { chunks := ["d"] }, apiKey := "sk-key" },
      chat_history := [], document_processed := true }
    { vectorstore := { chunks := ["d"] }, apiKey := "sk-key" }
    (some "other") "sk-key" (fun _ => []) true rfl rfl (by decide)
  exact ⟨h.1, h.2.1, h.2.2.1, (h.2.2.2 "next question" "sk-key" ["re", "ply"]).1,
    (h.2.2.2 "next question" "sk-key" ["re", "ply"]).2⟩

/-- C10: In every reachable session state, `document_processed = true` implies
an installed conversation chain; consequently a chat submission — which only
reaches the chain call when `document_processed` is true — never invokes a
`None` conversation object. -/
theorem ready_implies_conversation_present (s : SessionState) (h : Reachable s) :
    (s.document_processed = true → s.conversation.isSome = true) ∧
    (∀ q k out,
      (stepEvent s (Event.chatMsg q k out)).2.calledNoneConversation = false) := by
  refine ⟨reachable_conversation_isSome h, ?_⟩
  intro q k out
  rw [stepEvent]
  unfold handleChat
  cases hdp : s.document_processed with
  | false => simp
  | true =>
    have hsome := reachable_conversation_isSome h hdp
    cases hc : s.conversation with
    | none => rw [hc] at hsome; simp at hsome
    | some c =>
      cases q with
      | none => simp
      | some question =>
        cases out <;> simp [hc]

/-- Witness for C10: the state reached by one successful ingestion has a chain
installed, and a question submitted there does not invoke a `None`
conversation. -/
theorem ready_implies_conversation_present_witness :
    (stepEvent initState (Event.processClick (some "d") "sk-key"
      (fun d => [d]) true)).1.conversation.isSome = true ∧
    (stepEvent (stepEvent initState (Event.processClick (some "d") "sk-key"
        (fun d => [d]) true)).1
      (Event.chatMsg (some "hello") "" (ChainOutcome.success ["ok"]))).2.calledNoneConversation
        = false :=
  ⟨(ready_implies_conversation_present _ (Reachable.step _ Reachable.init)).1 (by decide),
   (ready_implies_conversation_present _ (Reachable.step _ Reachable.init)).2
     (some "hello") "" (ChainOutcome.success ["ok"])⟩

/-- C2: For a question submitted in a reachable `READY` state (the provided
Python front-end has no rule matcher, so every message takes the completion
path), exactly one conversation-chain (Completion Client) call is attempted;
on success the transcript grows by exactly two messages (the user message then
one assistant message), and on failure it grows by exactly the user message —
no partial assistant message is appended, even though part of the reply may
already have been streamed to the UI before the exception. -/
theorem no_match_one_completion_transcript_delta (s : SessionState)
    (q k : String) (h : Reachable s) (hready : s.document_processed = true) :
    (∀ toks,
      (stepEvent s (Event.chatMsg (some q) k
        (ChainOutcome.success toks))).2.completionAttempts = 1 ∧
      (stepEvent s (Event.chatMsg (some q) k
        (ChainOutcome.success toks))).1.chat_history.length
          = s.chat_history.length + 2) ∧
    (∀ pre err,
      (stepEvent s (Event.chatMsg (some q) k
        (ChainOutcome.failure pre err))).2.completionAttempts = 1 ∧
      (stepEvent s (Event.chatMsg (some q) k
        (ChainOutcome.failure pre err))).1.chat_history
          = s.chat_history ++ [⟨"user", q⟩]) := by
  have hsome := reachable_conversation_isSome h hready
  cases hc : s.conversation with
  | none => rw [hc] at hsome; simp at hsome
  | some c =>
    constructor
    · intro toks
      rw [stepEvent]
      unfold handleChat
      simp [hready, hc]
    · intro pre err
      rw [stepEvent]
      unfold handleChat
      simp [hready, hc]

/-- Witness for C2: in the `READY` state reached by one successful ingestion,
a successful completion appends two messages with one call, and a failing
completion appends only the user message with one call. -/
theorem no_match_one_completion_transcript_delta_witness :
    ((stepEvent (stepEvent initState (Event.processClick (some "d") "sk-key"
        (fun d => [d]) true)).1
      (Event.chatMsg (some "hello") "sk-key"
        (ChainOutcome.success ["a", "b"]))).2.completionAttempts = 1 ∧
     (stepEvent (stepEvent initState (Event.processClick (some "d") "sk-key"
        (fun d => [d]) true)).1
      (Event.chatMsg (some "hello") "sk-key"
        (ChainOutcome.success ["a", "b"]))).1.chat_history.length
          = (stepEvent initState (Event.processClick (some "d") "sk-key"
              (fun d => [d]) true)).1.chat_history.length + 2) ∧
    ((stepEvent (stepEvent initState (Event.processClick (some "d") "sk-key"
        (fun d => [d]) true)).1
      (Event.chatMsg (some "hello") "sk-key"
        (ChainOutcome.failure ["a"] "boom"))).2.completionAttempts = 1 ∧
     (stepEvent (stepEvent initState (Event.processClick (some "d") "sk-key"
        (fun d => [d]) true)).1
      (Event.chatMsg (some "hello") "sk-key"
        (ChainOutcome.failure ["a"] "boom"))).1.chat_history
          = (stepEvent initState (Event.processClick (some "d") "sk-key"
              (fun d => [d]) true)).1.chat_history ++ [⟨"user", "hello"⟩]) :=
  ⟨(no_match_one_completion_transcript_delta _ "hello" "sk-key"
      (Reachable.step _ Reachable.init) (by decide)).1 ["a", "b"],
   (no_match_one_completion_transcript_delta _ "hello" "sk-key"
      (Reachable.step _ Reachable.init) (by decide)).2 ["a"] "boom"⟩

/-- C5: For a successful streamed completion in a reachable `READY` state, the
increments delivered to the UI sink are exactly the streamed tokens, the
callback handler accumulates exactly their concatenation, and the transcript
receives exactly one assistant message for the whole completion — not one per
increment — whose text is that concatenation. -/
theorem streaming_single_message_reconstruction (s : SessionState)
    (q k : String) (tokens : List String) (h : Reachable s)
    (hready : s.document_processed = true) :
    (drainTokens { text := "", containerRenders := [] } tokens).text
      = joinStrs tokens ∧
    (stepEvent s (Event.chatMsg (some q) k
      (ChainOutcome.success tokens))).2.streamed = tokens ∧
    (stepEvent s (Event.chatMsg (some q) k
      (ChainOutcome.success tokens))).1.chat_history
        = s.chat_history ++ [⟨"user", q⟩, ⟨"assistant", joinStrs tokens⟩] := by
  have hsome := reachable_conversation_isSome h hready
  have htext : (drainTokens { text := "", containerRenders := [] } tokens).text
      = joinStrs tokens := by
    rw [drainTokens_text]
    exact String.empty_append _
  cases hc : s.conversation with
  | none => rw [hc] at hsome; simp at hsome
  | some c =>
    refine ⟨htext, ?_, ?_⟩
    · rw [stepEvent]
      unfold handleChat
      simp [hready, hc]
    · rw [stepEvent]
      unfold handleChat
      simp [hready, hc, htext]

/-- Witness for C5: streaming the two tokens "Wifi " and "guide" in the
`READY` state reached by one successful ingestion delivers exactly those
increments and appends the single assistant message "Wifi guide". -/
theorem streaming_single_message_reconstruction_witness :
    (drainTokens { text := "", containerRenders := [] } ["Wifi ", "guide"]).text
      = joinStrs ["Wifi ", "guide"] ∧
    (stepEvent (stepEvent initState (Event.processClick (some "d") "sk-key"
        (fun d => [d]) true)).1
      (Event.chatMsg (some "hello") "sk-key"
        (ChainOutcome.success ["Wifi ", "guide"]))).2.streamed = ["Wifi ", "guide"] ∧
    (stepEvent (stepEvent initState (Event.processClick (some "d") "sk-key"
        (fun d => [d]) true)).1
      (Event.chatMsg (some "hello") "sk-key"
        (ChainOutcome.success ["Wifi ", "guide"]))).1.chat_history
          = (stepEvent initState (Event.processClick (some "d") "sk-key"
              (fun d => [d]) true)).1.chat_history
            ++ [⟨"user", "hello"⟩, ⟨"assistant", joinStrs ["Wifi ", "guide"]⟩] :=
  streaming_single_message_reconstruction _ "hello" "sk-key" ["Wifi ", "guide"]
    (Reachable.step _ Reachable.init) (by decide)

/-- C1: If some rule's lower-cased trigger occurs as a substring of the
lower-cased message, the Rule Matcher returns the reply of the earliest such
rule in declared order — there is an index `j` whose rule fires, all earlier
rules do not fire, and `matchRules` returns that rule's reply — and the
orchestrator then answers from the rule without issuing any Completion Client
call, appending the rule reply as the assistant message. -/
theorem rule_match_first_rule_short_circuits (rules : List Rule) (text : String)
    (h : ∃ r ∈ rules, ruleFires text r = true) :
    ∃ j, ∃ hj : j < rules.length,
      ruleFires text rules[j] = true ∧
      (∀ i, i < j → ∀ hi : i < rules.length, ruleFires text rules[i] = false) ∧
      matchRules rules text = some rules[j].reply ∧
      (∀ complete transcript,
        (orchRespond rules complete transcript text).completionCalls = 0 ∧
        (orchRespond rules complete transcript text).transcript
          = transcript ++ [⟨"user", text⟩, ⟨"assistant", rules[j].reply⟩]) := by
  induction rules with
  | nil => simp at h
  | cons r rest ih =>
    cases hr : ruleFires text r with
    | true =>
      refine ⟨0, by simp, by simpa using hr, ?_, ?_, ?_⟩
      · intro i hi _
        omega
      · simp [matchRules, hr]
      · intro complete transcript
        unfold orchRespond
        simp [matchRules, hr]
    | false =>
      have h' : ∃ r0 ∈ rest, ruleFires text r0 = true := by
        rcases h with ⟨r0, hr0, hfire⟩
        rcases List.mem_cons.mp hr0 with heq | hmem
        · subst heq
          rw [hr] at hfire
          cases hfire
        · exact ⟨r0, hmem, hfire⟩
      rcases ih h' with ⟨j, hj, hfj, hleast, hmatch, horch⟩
      refine ⟨j + 1, by simpa using Nat.succ_lt_succ hj, by simpa using hfj, ?_, ?_, ?_⟩
      · intro i hi hilen
        cases i with
        | zero => simpa using hr
        | succ i0 =>
          have h1 : i0 < j := Nat.lt_of_succ_lt_succ hi
          have h2 : i0 < rest.length := Nat.lt_of_succ_lt_succ (by simpa using hilen)
          simpa using hleast i0 h1 h2
      · simpa [matchRules, hr] using hmatch
      · intro complete transcript
        have hm : matchRules (r :: rest) text = some rest[j].reply := by
          simpa [matchRules, hr] using hmatch
        unfold orchRespond
        simp [hm]

/-- Witness for C1 at the spec's scenario: with rules
`[(password, Reset guide...), (wifi, Wifi guide...)]` the message
`"My WIFI is broken"` is matched by the second rule (the first does not fire),
the Rule Matcher returns `"Wifi guide..."`, and the orchestrator answers with
it using zero Completion Client calls. -/
theorem rule_match_first_rule_short_circuits_witness :
    ∃ j, ∃ hj : j < ([{ trigger := "password", reply := "Reset guide..." },
        { trigger := "wifi", reply := "Wifi guide..." }] : List Rule).length,
      ruleFires "My WIFI is broken"
        ([{ trigger := "password", reply := "Reset guide..." },
          { trigger := "wifi", reply := "Wifi guide..." }] : List Rule)[j] = true ∧
      (∀ i, i < j → ∀ hi : i < ([{ trigger := "password", reply := "Reset guide..." },
          { trigger := "wifi", reply := "Wifi guide..." }] : List Rule).length,
        ruleFires "My WIFI is broken"
          ([{ trigger := "password", reply := "Reset guide..." },
            { trigger := "wifi", reply := "Wifi guide..." }] : List Rule)[i] = false) ∧
      matchRules [{ trigger := "password", reply := "Reset guide..." },
          { trigger := "wifi", reply := "Wifi guide..." }] "My WIFI is broken"
        = some ([{ trigger := "password", reply := "Reset guide..." },
            { trigger := "wifi", reply := "Wifi guide..." }] : List Rule)[j].reply ∧
      (∀ complete transcript,
        (orchRespond [{ trigger := "password", reply := "Reset guide..." },
            { trigger := "wifi", reply := "Wifi guide..." }]
          complete transcript "My WIFI is broken").completionCalls = 0 ∧
        (orchRespond [{ trigger := "password", reply := "Reset guide..." },
            { trigger := "wifi", reply := "Wifi guide..." }]
          complete transcript "My WIFI is broken").transcript
            = transcript ++ [⟨"user", "My WIFI is broken"⟩,
              ⟨"assistant", ([{ trigger := "password", reply := "Reset guide..." },
                { trigger := "wifi", reply := "Wifi guide..." }] : List Rule)[j].reply⟩]) :=
  rule_match_first_rule_short_circuits
    [{ trigger := "password", reply := "Reset guide..." },
     { trigger := "wifi", reply := "Wifi guide..." }]
    "My WIFI is broken"
    ⟨{ trigger := "wifi", reply := "Wifi guide..." }, by simp, by decide⟩

/-- C6 counterexample: a session successfully ingests a document with a valid
key (a reachable state), after which the key text input is cleared.  The next
question is handled with the credential absent, yet the conversation-chain
call is still issued (one completion attempt) and no warning or other UI
notification is shown — the chat path performs no credential check, so the
claimed short-circuit does not exist there. -/
theorem chat_no_credential_check_counterexample :
    Reachable (stepEvent initState
      (Event.processClick (some "doc") "sk-key" (fun d => [d]) true)).1 ∧
    (stepEvent (stepEvent initState
        (Event.processClick (some "doc") "sk-key" (fun d => [d]) true)).1
      (Event.chatMsg (some "hello") ""
        (ChainOutcome.success ["answer"]))).2.completionAttempts = 1 ∧
    (stepEvent (stepEvent initState
        (Event.processClick (some "doc") "sk-key" (fun d => [d]) true)).1
      (Event.chatMsg (some "hello") ""
        (ChainOutcome.success ["answer"]))).2.ui = [] :=
  ⟨Reachable.step _ Reachable.init, by decide, by decide⟩

/-- C6 amended: credential absence is checked on the ingestion path only — a
"Process Document" click with an empty key short-circuits with the warning and
performs no processing — while the chat/completion path performs no credential
check at all: its behaviour is identical for every value of the key input (the
chain uses the key captured at ingestion time). -/
theorem credential_check_amended (s : SessionState) (f : Option String)
    (q : Option String) (out : ChainOutcome) (k1 k2 : String)
    (split : String → List String) (embedOk : Bool) :
    stepEvent s (Event.processClick f "" split embedOk) =
      (s, ⟨[UIAction.warningMsg "Please enter your OpenAI API key to proceed."],
        0, [], false⟩) ∧
    stepEvent s (Event.chatMsg q k1 out) = stepEvent s (Event.chatMsg q k2 out) := by
  constructor
  · cases f with
    | none => rw [stepEvent]; unfold handleProcessClick; simp
    | some doc => rw [stepEvent]; unfold handleProcessClick; simp
  · rfl
